import Mathlib

/-!
Shallow embedding of `skim-ec2` (`src/main.rs`), an interactive EC2 instance
picker: it fetches instances, streams them to a fuzzy picker, and prints the
selected instance id or substitutes it into a shell command template.

Modelling conventions:
* A Rust `panic!` / `.expect(...)` is modelled by `Option`: `none` means the
  computation panics.  A panic in the main task aborts the process; a panic
  inside the `tokio::spawn`ed fetch task is caught by the runtime, so only
  that task dies (see `bridgeEvents`).  Fallible results (`eyre::Result`)
  are `Except String`.
* AWS SDK records carry only the fields `main.rs` consumes; every consumed
  field is `Option`al exactly as in the SDK model types.
* Timestamps are epoch seconds as `Int` (`DateTime::secs()` and
  `chrono::Utc::now().timestamp()` both yield `i64` epoch seconds).
* External library behaviour that `main.rs` calls into (`chrono_humanize`,
  `shell_escape`, the `skim` trait defaults) is embedded as separate,
  clearly-documented definitions.
-/

/-- A tag of an EC2 instance (`ec2::model::Tag`): both key and value are
optional in the SDK model. -/
structure Tag where
  key : Option String
  value : Option String
deriving DecidableEq, Repr

/-- The state of an EC2 instance (`ec2::model::InstanceState`); only the
`name` field is consumed. -/
structure InstanceState where
  name : Option String
deriving DecidableEq, Repr

/-- The fields of `ec2::model::Instance` that `main.rs` consumes.  Every one
of them is optional in the SDK model. -/
structure Instance where
  instance_id : Option String
  instance_type : Option String
  state : Option InstanceState
  public_dns_name : Option String
  private_dns_name : Option String
  tags : Option (List Tag)
  launch_time : Option Int
deriving DecidableEq, Repr

/-- `enum NameRule` (main.rs:42-47): the strategy for an item's display
text. -/
inductive NameRule where
  | tag (name : String)
  | host
  | instanceID
deriving DecidableEq, Repr

/-- `struct InstanceItem` (main.rs:49-53): one instance plus the active name
rule (`Box<NameRule>`, the same value cloned into every item). -/
structure InstanceItem where
  inst : Instance
  name_rule : NameRule
deriving DecidableEq, Repr

/-- `struct ErrorItem` (main.rs:55-58): a synthetic item carrying a fetch
failure message. -/
structure ErrorItem where
  message : String
deriving DecidableEq, Repr

/-- `From<Instance> for InstanceItem` (main.rs:60-67): the conversion sets
the name rule to `InstanceID`; `get_instances` overwrites it afterwards. -/
def instanceItemFrom (i : Instance) : InstanceItem :=
  { inst := i, name_rule := NameRule.instanceID }

/-- `InstanceItem::text` (main.rs:80-105).  Under `NameRule::Tag` the code
calls `.expect(...)` on the tag set, on the result of `find`, and on the
tag's value, so a missing piece panics (`none` here).  Under `Host` and
`InstanceID` missing fields fall back to the empty string. -/
def InstanceItem.text (self : InstanceItem) : Option String :=
  match self.name_rule with
  | NameRule.tag tag => do
      let ts ← self.inst.tags
      let t ← ts.find? (fun t => t.key == some tag)
      let name ← t.value
      pure name
  | NameRule.host =>
      some (match self.inst.public_dns_name with
            | some x => x
            | none =>
              match self.inst.private_dns_name with
              | some x => x
              | none => "")
  | NameRule.instanceID =>
      some (match self.inst.instance_id with
            | some x => x
            | none => "")

/-- `InstanceItem::output` (main.rs:165-173): the instance id, with a panic
(`.expect("instance has no id")`, modelled `none`) when it is absent. -/
def InstanceItem.output (self : InstanceItem) : Option String :=
  self.inst.instance_id

/-- `ErrorItem::preview` (main.rs:74-76): the raw message, verbatim; it reads
no ambient state. -/
def ErrorItem.preview (self : ErrorItem) : String :=
  self.message

/-- Modelled from the spec: the relative-duration formatter is the external
`chrono_humanize::HumanTime` crate, which is not part of this repository's
sources.  The spec describes its use as "formatted as a relative duration
(e.g. \"3 hours ago\")"; what matters here is that a negative duration is
rendered in the past tense ("... ago"), a positive one in the future tense
("in ..."), and zero as "now", with coarse magnitude buckets. -/
def humanTime (d : Int) : String :=
  let a := d.natAbs
  let phrase :=
    if a < 60 then toString a ++ " seconds"
    else if a < 3600 then toString (a / 60) ++ " minutes"
    else if a < 86400 then toString (a / 3600) ++ " hours"
    else toString (a / 86400) ++ " days"
  if d = 0 then "now"
  else if d < 0 then phrase ++ " ago"
  else "in " ++ phrase

/-- The uptime string of `InstanceItem::preview` (main.rs:140-150): with a
launch time present the code computes `secs - now` (launch time minus the
current clock reading) and humanizes it; with no launch time it is the empty
string. -/
def uptimeString (launch : Option Int) (now : Int) : String :=
  match launch with
  | some secs => humanTime (secs - now)
  | none => ""

/-- Follows the spec's words, for comparison with `uptimeString`: "a
human-relative uptime computed as `now - launchTime`". -/
def uptimeSpecString (launch : Option Int) (now : Int) : String :=
  match launch with
  | some secs => humanTime (now - secs)
  | none => ""

/-- One step of the tag map construction in `InstanceItem::preview`
(main.rs:132-137): `.expect("tag key")` and `.expect("tag value")` panic
(`none`) when either side is absent. -/
def tagPair (t : Tag) : Option (String × String) := do
  let k ← t.key
  let v ← t.value
  pure (k, v)

/-- The iterator `.map(...).collect()` over the tag list (main.rs:131-138):
any tag with a missing key or value panics the whole collection. -/
def tagPairs : List Tag → Option (List (String × String))
  | [] => some []
  | t :: rest => do
      let p ← tagPair t
      let ps ← tagPairs rest
      pure (p :: ps)

/-- Insertion into a key-sorted association list, replacing an existing
binding: the composite behaviour of collecting into a
`HashMap<String, String>` (duplicate keys: last one wins) which `serde_json`
then serializes as a key-ordered map. -/
def insertSorted (k v : String) : List (String × String) → List (String × String)
  | [] => [(k, v)]
  | (k2, v2) :: rest =>
    if k = k2 then (k, v) :: rest
    else if k < k2 then (k, v) :: (k2, v2) :: rest
    else (k2, v2) :: insertSorted k v rest

/-- The tag map of the preview as it appears in the rendered JSON value:
key-sorted, duplicate keys resolved last-wins by the `HashMap` collect. -/
def tagsMap (pairs : List (String × String)) : List (String × String) :=
  pairs.foldl (fun m kv => insertSorted kv.1 kv.2 m) []

/-- The JSON value built by `json!` in `InstanceItem::preview`
(main.rs:152-160).  The rendered preview text is the (injective)
serialization of this value by `to_colored_json_auto`; a serialization
failure degrades to `""` and never panics (main.rs:161). -/
structure PreviewVal where
  instance_id : String
  instance_type : String
  state : String
  uptime : String
  public_dns_name : Option String
  private_dns_name : Option String
  tags : List (String × String)
deriving DecidableEq, Repr

/-- `InstanceItem::preview` (main.rs:111-163).  The code `.expect(...)`s the
instance type, the state, the state name, the tag set, each tag's key and
value, and the instance id, so any of them missing panics (`none`).  `now`
is the ambient clock reading `chrono::Utc::now().timestamp()` taken during
the call (main.rs:143). -/
def InstanceItem.preview (self : InstanceItem) (now : Int) : Option PreviewVal := do
  let ty ← self.inst.instance_type
  let st ← self.inst.state
  let stName ← st.name
  let ts ← self.inst.tags
  let pairs ← tagPairs ts
  let iid ← self.inst.instance_id
  pure { instance_id := iid
         instance_type := ty
         state := stName
         uptime := uptimeString self.inst.launch_time now
         public_dns_name := self.inst.public_dns_name
         private_dns_name := self.inst.private_dns_name
         tags := tagsMap pairs }

/-- An entry on the skim channel: either an instance item or the synthetic
error item (`Arc<dyn SkimItem>` holding one of the two concrete types). -/
inductive SkimEntry where
  | inst (item : InstanceItem)
  | err (item : ErrorItem)
deriving DecidableEq, Repr

/-- The `text()` of an entry: `InstanceItem::text` (main.rs:80-105) or the
fixed sentinel `"error"` for `ErrorItem` (main.rs:70-72). -/
def SkimEntry.textValue : SkimEntry → Option String
  | SkimEntry.inst i => InstanceItem.text i
  | SkimEntry.err _ => some "error"

/-- The `output()` of an entry.  `InstanceItem` overrides it
(main.rs:165-173); `ErrorItem` does not, so it inherits the `skim` trait's
default body `fn output(&self) -> Cow<str> { self.text() }`, i.e. the fixed
string `"error"`. -/
def SkimEntry.outputValue : SkimEntry → Option String
  | SkimEntry.inst i => InstanceItem.output i
  | SkimEntry.err e => SkimEntry.textValue (SkimEntry.err e)

/-- The CLI arguments (`struct Args`, main.rs:21-40). -/
structure Args where
  profile : Option String
  filter : List String
  name_tag : Option String
  name_host : Bool
  name_id : Bool
  command : Option String
deriving DecidableEq, Repr

/-- The name-rule selection in `get_instances` (main.rs:276-284): `--name-tag`
wins, then `--name-host`, then `--name-id`, then the default
`Tag("Name")`. -/
def chooseNameRule (args : Args) : NameRule :=
  match args.name_tag with
  | some tag => NameRule.tag tag
  | none =>
    if args.name_host then NameRule.host
    else if args.name_id then NameRule.instanceID
    else NameRule.tag "Name"

/-- A reservation group of the DescribeInstances response; only its optional
instance list is consumed (main.rs:288). -/
structure Reservation where
  instances : Option (List Instance)
deriving DecidableEq, Repr

/-- The flattening `reservations.iter().flat_map(|r| r.instances().expect(
"instances").iter().cloned())` (main.rs:286-288): group order then
within-group order; a reservation with no instance list panics (`none`). -/
def flattenReservations : List Reservation → Option (List Instance)
  | [] => some []
  | r :: rest => do
      let here ← r.instances
      let more ← flattenReservations rest
      pure (here ++ more)

/-- The per-instance item construction of `get_instances` (main.rs:289-293):
convert via `From<Instance>` then overwrite `name_rule` with the one shared
rule. -/
def makeItems (instances : List Instance) (rule : NameRule) : List InstanceItem :=
  instances.map (fun i => { instanceItemFrom i with name_rule := rule })

/-- `get_instances` after the response arrives (main.rs:272-296): flatten the
reservations and attach the one chosen name rule to every item.  (The
`ok_or_else(.. "no reservations")` case for an absent reservation list and
the network call itself are the `Except.error` feed of `bridgeEvents`.) -/
def getInstances (reservations : List Reservation) (args : Args) :
    Option (List InstanceItem) := do
  let flat ← flattenReservations reservations
  pure (makeItems flat (chooseNameRule args))

/-- The outcome of the spawned fetch task's body: `some (Except.ok items)`
when `get_instances` returns its item list, `some (Except.error msg)` when
it returns an error (the transport `?` at main.rs:271 or the
`no reservations` error at main.rs:272-274), and `none` when it panics —
which happens at `.expect("instances")` (main.rs:288) when a reservation of
a successful response has no instance list. -/
def fetchOutcome (response : Except String (List Reservation)) (args : Args) :
    Option (Except String (List InstanceItem)) :=
  match response with
  | Except.error msg => some (Except.error msg)
  | Except.ok rs =>
    match getInstances rs args with
    | some items => some (Except.ok items)
    | none => none

/-- `get_instances_background` (main.rs:237-257) as the finite sequence of
sends performed on the channel before the sender is dropped (dropping it is
what closes the channel): one entry per item in fetch order on success,
exactly one `ErrorItem` holding `format!("{}", msg)` on a returned error.
The `none` input is the third possible outcome: `get_instances` panics at
main.rs:288 inside the `tokio::spawn`ed task, before the first send; the
runtime catches the panic, only the task dies, its sender is dropped, and
the channel closes having carried zero events and no `ErrorItem`. -/
def bridgeEvents : Option (Except String (List InstanceItem)) → List SkimEntry
  | some (Except.ok instances) => instances.map SkimEntry.inst
  | some (Except.error msg) => [SkimEntry.err { message := msg }]
  | none => []

/-- Outcome of the selection step of `main` (main.rs:210-219): an
`eyre::Result` error (non-zero exit), a panic, or an identifier string that
flows on to the action-executor code. -/
inductive RunOutcome where
  | panicked (msg : String)
  | fail (msg : String)
  | selected (id : String)
deriving DecidableEq, Repr

/-- The selection step of `main` (main.rs:210-219): abort fails the run;
otherwise the first selected item's `output()` is taken (an empty selection
panics at `.expect("selected item")`, a missing instance id panics inside
`output()`).  No case inspects whether the selected entry is an
`ErrorItem`. -/
def mainSelect (is_abort : Bool) (selected : List SkimEntry) : RunOutcome :=
  if is_abort then RunOutcome.fail "skim aborted"
  else
    match selected with
    | [] => RunOutcome.panicked "selected item"
    | e :: _ =>
      match SkimEntry.outputValue e with
      | some s => RunOutcome.selected s
      | none => RunOutcome.panicked "instance has no id"

/-- Rust `str::split_once` on a single character: split at the first
occurrence, `none` when the character does not occur. -/
def splitOnceAux (c : Char) : List Char → Option (List Char × List Char)
  | [] => none
  | x :: xs =>
    if x = c then some ([], xs)
    else
      match splitOnceAux c xs with
      | some (pre, post) => some (x :: pre, post)
      | none => none

/-- `f.split_once('=')` (main.rs:264) lifted to `String`. -/
def splitOnce (s : String) (c : Char) : Option (String × String) :=
  match splitOnceAux c s.data with
  | some (pre, post) => some (String.mk pre, String.mk post)
  | none => none

/-- A structured filter predicate (`ec2::model::Filter`; named `Ec2Filter`
here because `Filter` already means something else in Mathlib): a name and
its values (`.values(value)` appends a single value). -/
structure Ec2Filter where
  name : String
  values : List String
deriving DecidableEq, Repr

/-- The per-string filter construction of `get_instances` (main.rs:261-270):
split at the first `=` into name and one value, or a bare name with no
values. -/
def buildFilter (f : String) : Ec2Filter :=
  match splitOnce f '=' with
  | some (name, value) => { name := name, values := [value] }
  | none => { name := f, values := [] }

/-- The defaulting in `main` (main.rs:184-186): an empty `--filter` list is
replaced by the single string `"instance-state-name=running"`. -/
def defaultFilters (filters : List String) : List String :=
  if filters.isEmpty then ["instance-state-name=running"] else filters

/-- The full Filter Builder: defaulting in `main` followed by the per-string
construction loop of `get_instances`, in order. -/
def buildFilters (filters : List String) : List Ec2Filter :=
  (defaultFilters filters).map buildFilter

/-- The whitelist of the external `shell_escape` crate's unix escape: ASCII
alphanumerics and `-`, `_`, `=`, `/`, `,`, `.`, `+` need no quoting. -/
def shellAllowed (c : Char) : Bool :=
  c.isAlphanum || c = '-' || c = '_' || c = '=' || c = '/' || c = ',' || c = '.' || c = '+'

/-- The single-quote character. -/
def squoteChar : Char := Char.ofNat 39

/-- The backslash character. -/
def backslashChar : Char := Char.ofNat 92

/-- The exclamation-mark character. -/
def bangChar : Char := Char.ofNat 33

/-- Escaping of one character inside the single-quoted form: a quote or a
bang is closed off, backslash-escaped and reopened; everything else is kept
as is. -/
def escapeChar (c : Char) : List Char :=
  if c = squoteChar || c = bangChar then [squoteChar, backslashChar, c, squoteChar]
  else [c]

/-- `shell_escape::escape` (called at main.rs:222), an external crate: a
non-empty string of whitelisted characters is returned unchanged; anything
else is wrapped in single quotes with embedded quotes and bangs escaped. -/
def shellEscape (s : String) : String :=
  if !s.isEmpty && s.data.all shellAllowed then s
  else
    String.mk (squoteChar :: s.data.foldr (fun c acc => escapeChar c ++ acc) [squoteChar])

/-- Rust `str::contains(pattern)` on lists of characters: does `pat` occur as
a contiguous substring? -/
def hasSubstrAux (pat : List Char) : List Char → Bool
  | [] => pat.isEmpty
  | c :: rest => pat.isPrefixOf (c :: rest) || hasSubstrAux pat rest

/-- `cmdline.contains("{}")` (main.rs:223) lifted to `String`. -/
def hasSubstr (s pat : String) : Bool :=
  hasSubstrAux pat.data s.data

/-- Replacement engine for Rust `str::replace`: scan left to right, replace
each non-overlapping occurrence of `pat`, with a fuel argument bounding the
number of consumed characters (one character is consumed per step, so
`l.length` fuel is always enough for a non-empty pattern). -/
def replaceAllAux (pat rep : List Char) : Nat → List Char → List Char
  | 0, l => l
  | fuel + 1, l =>
    match l with
    | [] => []
    | c :: rest =>
      if pat.isPrefixOf l then rep ++ replaceAllAux pat rep fuel (l.drop pat.length)
      else c :: replaceAllAux pat rep fuel rest

/-- `cmdline.replace("{}", &id)` (main.rs:224): replace every non-overlapping
occurrence of a non-empty pattern, leftmost first. -/
def replaceAll (s pat rep : String) : String :=
  if pat.isEmpty then s
  else String.mk (replaceAllAux pat.data rep.data s.data.length s.data)

/-- The command-template placeholder token `{}`. -/
def placeholder : String := "\x7b\x7d"

/-- What the Action Executor does with its input. -/
inductive ActionResult where
  | printed (s : String)
  | execLine (line : String)
deriving DecidableEq, Repr

/-- The action-executor tail of `main` (main.rs:221-234): with no `--command`
the raw identifier is printed; with a template the identifier is
shell-escaped and substituted at every `{}` when the template contains one,
otherwise appended after a space (`format!("{} {}", cmdline, id)`), and the
resulting line is run via `sh -c`. -/
def actionExecutor (command : Option String) (instance_id : String) : ActionResult :=
  match command with
  | some cmdline =>
      let id := shellEscape instance_id
      let line :=
        if hasSubstr cmdline placeholder then replaceAll cmdline placeholder id
        else cmdline ++ " " ++ id
      ActionResult.execLine line
  | none => ActionResult.printed instance_id

/-- An instance record with every optional field absent. -/
def emptyInstance : Instance :=
  { instance_id := none, instance_type := none, state := none,
    public_dns_name := none, private_dns_name := none, tags := none,
    launch_time := none }

/-- A fully populated instance record, launched at epoch second 40. -/
def fullInstance : Instance :=
  { instance_id := some "i-0123", instance_type := some "t3.micro",
    state := some { name := some "running" },
    public_dns_name := none, private_dns_name := some "ip-10-0-0-5",
    tags := some [{ key := some "Name", value := some "web-1" }],
    launch_time := some 40 }

/-- The preview value of `fullInstance` at clock reading 10840 (three hours
after launch). -/
def fullPreview : PreviewVal :=
  { instance_id := "i-0123", instance_type := "t3.micro", state := "running",
    uptime := "3 hours ago", public_dns_name := none,
    private_dns_name := some "ip-10-0-0-5", tags := [("Name", "web-1")] }

/-- Collecting tag pairs succeeds exactly when every tag has both a key and
a value. -/
theorem tagPairs_isSome (ts : List Tag) :
    (tagPairs ts).isSome = true ↔
      ∀ t ∈ ts, t.key.isSome = true ∧ t.value.isSome = true := by
  induction ts with
  | nil => simp [tagPairs]
  | cons t rest ih =>
    cases hk : t.key with
    | none => simp [tagPairs, tagPair, hk]
    | some k =>
      cases hv : t.value with
      | none => simp [tagPairs, tagPair, hk, hv]
      | some v =>
        cases hr : tagPairs rest with
        | none => simp_all [tagPairs, tagPair, hk, hv, hr]
        | some ps => simp_all [tagPairs, tagPair, hk, hv, hr]

/-- C1: the claim states that computing an item's display text never crashes
under any active name rule — under `ByTag` it should either return the tag's
value or signal `NameError::TagMissing` as data, with a fallback display for
instances missing the tag.  The code refutes this: under `NameRule::Tag`
with an absent tag set, `InstanceItem::text` hits
`.expect("instance has no tags")` (main.rs:83) and panics (modelled `none`),
aborting the process and with it the whole batch. -/
theorem c1_counterexample :
    InstanceItem.text { inst := emptyInstance, name_rule := NameRule.tag "Name" } = none := by
  rfl

/-- C1 (amended): display-text resolution is total under `ByHost` and
`ByInstanceId` (with empty-string fallbacks), but under `ByTag(name)` the
code panics — it neither signals `NameError::TagMissing(name)` as data nor
falls back — whenever the tag set is absent, the named tag is not found, or
the found tag has no value; when the named tag is found, its (optional)
value is returned. -/
theorem c1_amended_text_behavior :
    (∀ i : Instance,
       (InstanceItem.text { inst := i, name_rule := NameRule.host }).isSome = true ∧
       (InstanceItem.text { inst := i, name_rule := NameRule.instanceID }).isSome = true) ∧
    (∀ (i : Instance) (name : String), i.tags = none →
       InstanceItem.text { inst := i, name_rule := NameRule.tag name } = none) ∧
    (∀ (i : Instance) (name : String) (ts : List Tag), i.tags = some ts →
       ts.find? (fun t => t.key == some name) = none →
       InstanceItem.text { inst := i, name_rule := NameRule.tag name } = none) ∧
    (∀ (i : Instance) (name : String) (ts : List Tag) (t : Tag), i.tags = some ts →
       ts.find? (fun t2 => t2.key == some name) = some t →
       InstanceItem.text { inst := i, name_rule := NameRule.tag name } = t.value) := by
  refine ⟨fun i => ⟨?_, ?_⟩, fun i name h => ?_, fun i name ts h1 h2 => ?_,
    fun i name ts t h1 h2 => ?_⟩
  · simp [InstanceItem.text]
  · simp [InstanceItem.text]
  · simp [InstanceItem.text, h]
  · simp [InstanceItem.text, h1, h2]
  · cases hv : t.value <;> simp [InstanceItem.text, h1, h2, hv]

/-- C1 witness: applying the amended theorem to a concrete instance whose
`Name` tag is present with value `web-1`. -/
theorem c1_witness :
    InstanceItem.text { inst := fullInstance, name_rule := NameRule.tag "Name" } = some "web-1" := by
  have h := c1_amended_text_behavior.2.2.2 fullInstance "Name"
    [{ key := some "Name", value := some "web-1" }]
    { key := some "Name", value := some "web-1" } rfl (by decide)
  simpa using h

/-- C2: the claim requires that a selected `ErrorItem` fails the run with a
`SelectionError` before the Action Executor runs, its output value never
being emitted as an identifier.  The code has no such check: `ErrorItem`
inherits skim's default `output() = text()`, so selecting it yields the
string `"error"`, which `main` then treats as the selected identifier — it
is printed, or spliced into the command line (`ssh error`), instead of
failing the run. -/
theorem c2_error_item_selected_eval :
    mainSelect false [SkimEntry.err { message := "connection refused" }] =
      RunOutcome.selected "error" ∧
    actionExecutor (some "ssh \x7b\x7d") "error" = ActionResult.execLine "ssh error" ∧
    actionExecutor none "error" = ActionResult.printed "error" := by
  refine ⟨rfl, by decide, rfl⟩

/-- C3: the claim states that once an item has passed fetch, rendering its
preview never fails the process and missing fields degrade the preview
string.  The code refutes this: an instance with a missing instance type
hits `.expect("instance has no type")` in `InstanceItem::preview`
(main.rs:116) and panics (modelled `none`). -/
theorem c3_counterexample :
    InstanceItem.preview { inst := emptyInstance, name_rule := NameRule.instanceID } 0 = none := by
  rfl

/-- C3 (amended): preview rendering succeeds exactly when the instance type,
the state with its name, the tag set with every tag's key and value, and the
instance id are all present; if any of them is absent the process panics
(modelled `none`) rather than producing a degraded preview. -/
theorem c3_amended_preview_success_iff (it : InstanceItem) (now : Int) :
    (InstanceItem.preview it now).isSome = true ↔
      (it.inst.instance_type.isSome = true ∧
       (∃ st, it.inst.state = some st ∧ st.name.isSome = true) ∧
       (∃ ts, it.inst.tags = some ts ∧
          ∀ t ∈ ts, t.key.isSome = true ∧ t.value.isSome = true) ∧
       it.inst.instance_id.isSome = true) := by
  cases hty : it.inst.instance_type with
  | none => simp [InstanceItem.preview, hty]
  | some ty =>
    cases hst : it.inst.state with
    | none => simp [InstanceItem.preview, hty, hst]
    | some st =>
      cases hstn : st.name with
      | none => simp [InstanceItem.preview, hty, hst, hstn]
      | some stn =>
        cases hts : it.inst.tags with
        | none => simp [InstanceItem.preview, hty, hst, hstn, hts]
        | some ts =>
          cases hps : tagPairs ts with
          | none =>
            have hiff := tagPairs_isSome ts
            rw [hps] at hiff
            simp only [Option.isSome_none, Bool.false_eq_true, false_iff] at hiff
            simp [InstanceItem.preview, hty, hst, hstn, hts, hps]
            exact fun hall => absurd hall hiff
          | some ps =>
            cases hid : it.inst.instance_id with
            | none => simp [InstanceItem.preview, hty, hst, hstn, hts, hps, hid]
            | some iid =>
              have hall := (tagPairs_isSome ts).mp (by rw [hps]; rfl)
              simp [InstanceItem.preview, hty, hst, hstn, hts, hps, hid]
              exact hall

/-- C3 witness: the success direction of the amended characterization at a
fully populated instance. -/
theorem c3_witness :
    (InstanceItem.preview { inst := fullInstance, name_rule := NameRule.instanceID } 0).isSome = true := by
  refine (c3_amended_preview_success_iff { inst := fullInstance, name_rule := NameRule.instanceID } 0).mpr ?_
  refine ⟨rfl, ⟨{ name := some "running" }, rfl, rfl⟩, ⟨_, rfl, ?_⟩, rfl⟩
  decide

/-- Inversion of a successful preview: every required field was present and
the result is exactly the JSON value built at main.rs:152-160. -/
theorem preview_some_eq (it : InstanceItem) (now : Int) (p : PreviewVal)
    (h : InstanceItem.preview it now = some p) :
    ∃ ty st stn ts ps iid,
      it.inst.instance_type = some ty ∧ it.inst.state = some st ∧
      st.name = some stn ∧ it.inst.tags = some ts ∧ tagPairs ts = some ps ∧
      it.inst.instance_id = some iid ∧
      p = { instance_id := iid, instance_type := ty, state := stn,
            uptime := uptimeString it.inst.launch_time now,
            public_dns_name := it.inst.public_dns_name,
            private_dns_name := it.inst.private_dns_name,
            tags := tagsMap ps } := by
  cases hty : it.inst.instance_type with
  | none => simp [InstanceItem.preview, hty] at h
  | some ty =>
    cases hst : it.inst.state with
    | none => simp [InstanceItem.preview, hty, hst] at h
    | some st =>
      cases hstn : st.name with
      | none => simp [InstanceItem.preview, hty, hst, hstn] at h
      | some stn =>
        cases hts : it.inst.tags with
        | none => simp [InstanceItem.preview, hty, hst, hstn, hts] at h
        | some ts =>
          cases hps : tagPairs ts with
          | none => simp [InstanceItem.preview, hty, hst, hstn, hts, hps] at h
          | some ps =>
            cases hid : it.inst.instance_id with
            | none => simp [InstanceItem.preview, hty, hst, hstn, hts, hps, hid] at h
            | some iid =>
              simp [InstanceItem.preview, hty, hst, hstn, hts, hps, hid] at h
              exact ⟨ty, st, stn, ts, ps, iid, rfl, rfl, hstn, rfl, hps, rfl, h.symm⟩

/-- C4: the claim states the uptime shown in the preview is computed as
`now - launchTime`.  The code computes the negation, `secs - now`
(main.rs:144): at launch time 40 and clock reading 10840 the code renders
"3 hours ago" (which also matches the spec's own example) while the claimed
formula `now - launchTime` would render the future-tense "in 3 hours". -/
theorem c4_counterexample :
    uptimeString (some 40) 10840 = "3 hours ago" ∧
    uptimeSpecString (some 40) 10840 = "in 3 hours" ∧
    uptimeString (some 40) 10840 ≠ uptimeSpecString (some 40) 10840 := by
  exact ⟨by decide, by decide, by decide⟩

/-- C4 (amended): for an instance with a launch time the preview's uptime
field is the relative rendering of `launchTime - now` (negative for a past
launch, hence rendered in the "... ago" form); with no launch time the
uptime field is the empty string, not an error. -/
theorem c4_amended_uptime :
    (∀ secs now : Int, uptimeString (some secs) now = humanTime (secs - now)) ∧
    (∀ now : Int, uptimeString none now = "") ∧
    (∀ (it : InstanceItem) (now : Int) (p : PreviewVal),
       InstanceItem.preview it now = some p →
       p.uptime = uptimeString it.inst.launch_time now) := by
  refine ⟨fun secs now => rfl, fun now => rfl, fun it now p h => ?_⟩
  obtain ⟨ty, st, stn, ts, ps, iid, -, -, -, -, -, -, hp⟩ := preview_some_eq it now p h
  rw [hp]

/-- C4 witness: the amended theorem applied to a concrete instance launched
at epoch second 40 and previewed at clock reading 10840. -/
theorem c4_witness :
    fullPreview.uptime = uptimeString fullInstance.launch_time 10840 :=
  c4_amended_uptime.2.2 { inst := fullInstance, name_rule := NameRule.instanceID }
    10840 fullPreview (by decide)

/-- C5: the claim states the preview is a pure function of the item alone,
with no dependence on ambient state.  The code refutes this: the preview
reads the ambient clock (`chrono::Utc::now()`, main.rs:143), so the same
unchanged item previewed at clock readings 40 and 10840 yields different
uptime strings ("now" versus "3 hours ago") and hence different preview
texts. -/
theorem c5_counterexample :
    InstanceItem.preview { inst := fullInstance, name_rule := NameRule.instanceID } 40 ≠
      InstanceItem.preview { inst := fullInstance, name_rule := NameRule.instanceID } 10840 := by
  decide

/-- C5 (amended): the preview is a pure function of the item and of the
clock reading taken during the call — an `ErrorItem` preview is its stored
message verbatim, an instance without a launch time previews identically at
all clock readings, and for any instance all preview fields other than
`uptime` are independent of the clock. -/
theorem c5_amended_preview_determinism :
    (∀ e : ErrorItem, ErrorItem.preview e = e.message) ∧
    (∀ (it : InstanceItem) (now1 now2 : Int), it.inst.launch_time = none →
       InstanceItem.preview it now1 = InstanceItem.preview it now2) ∧
    (∀ (it : InstanceItem) (now1 now2 : Int) (p1 p2 : PreviewVal),
       InstanceItem.preview it now1 = some p1 →
       InstanceItem.preview it now2 = some p2 →
       p1.instance_id = p2.instance_id ∧ p1.instance_type = p2.instance_type ∧
       p1.state = p2.state ∧ p1.public_dns_name = p2.public_dns_name ∧
       p1.private_dns_name = p2.private_dns_name ∧ p1.tags = p2.tags) := by
  refine ⟨fun e => rfl, fun it n1 n2 h => ?_, fun it n1 n2 p1 p2 h1 h2 => ?_⟩
  · simp [InstanceItem.preview, uptimeString, h]
  · obtain ⟨ty, st, stn, ts, ps, iid, hty, hst, hstn, hts, hps, hid, hp1⟩ :=
      preview_some_eq it n1 p1 h1
    obtain ⟨ty2, st2, stn2, ts2, ps2, iid2, hty2, hst2, hstn2, hts2, hps2, hid2, hp2⟩ :=
      preview_some_eq it n2 p2 h2
    rw [hty] at hty2
    rw [hst] at hst2
    rw [hts] at hts2
    rw [hid] at hid2
    cases hty2
    cases hst2
    cases hts2
    cases hid2
    rw [hstn] at hstn2
    rw [hps] at hps2
    cases hstn2
    cases hps2
    subst hp1
    subst hp2
    exact ⟨rfl, rfl, rfl, rfl, rfl, rfl⟩

/-- C5 witness: the amended theorem applied to an item with no launch time,
previewed at two different clock readings. -/
theorem c5_witness :
    InstanceItem.preview { inst := emptyInstance, name_rule := NameRule.host } 0 =
      InstanceItem.preview { inst := emptyInstance, name_rule := NameRule.host } 12345 :=
  c5_amended_preview_determinism.2.1 { inst := emptyInstance, name_rule := NameRule.host }
    0 12345 rfl

/-- C6: a resource item's output value equals its instance identifier,
whatever name rule controls its display text — `InstanceItem::output`
(main.rs:165-173) reads only `instance_id` and never consults
`name_rule`. -/
theorem c6_output_is_identifier (i : Instance) (rule : NameRule) (id : String)
    (h : i.instance_id = some id) :
    InstanceItem.output { inst := i, name_rule := rule } = some id ∧
    (∀ rule2 : NameRule,
       InstanceItem.output { inst := i, name_rule := rule } =
         InstanceItem.output { inst := i, name_rule := rule2 }) :=
  ⟨h, fun _ => rfl⟩

/-- C6 witness: the theorem applied to a concrete instance under the host
rule. -/
theorem c6_witness :
    InstanceItem.output { inst := fullInstance, name_rule := NameRule.host } = some "i-0123" :=
  (c6_output_is_identifier fullInstance NameRule.host "i-0123" rfl).1

/-- Flattening the reservation groups panics exactly when some reservation
lacks its instance list. -/
theorem flattenReservations_none_iff (rs : List Reservation) :
    flattenReservations rs = none ↔ ∃ rv ∈ rs, rv.instances = none := by
  induction rs with
  | nil => simp [flattenReservations]
  | cons r rest ih =>
    cases hr : r.instances with
    | none =>
      constructor
      · intro _
        exact ⟨r, List.mem_cons_self r rest, hr⟩
      · intro _
        simp [flattenReservations, hr]
    | some l =>
      cases hrest : flattenReservations rest with
      | none =>
        constructor
        · intro _
          obtain ⟨rv, hm, hn⟩ := ih.mp hrest
          exact ⟨rv, List.mem_cons_of_mem r hm, hn⟩
        · intro _
          simp [flattenReservations, hr, hrest]
      | some m =>
        constructor
        · intro h
          exact absurd h (by simp [flattenReservations, hr, hrest])
        · rintro ⟨rv, hm, hn⟩
          rcases List.mem_cons.mp hm with h1 | h1
          · subst h1
            rw [hr] at hn
            exact absurd hn (by simp)
          · have h2 := ih.mpr ⟨rv, h1, hn⟩
            rw [hrest] at h2
            exact absurd h2 (by simp)

/-- C7: the claim states that for every fetch outcome the channel carries
exactly one terminal event — N success items or exactly one `ErrorItem`
carrying the failure's message — never zero events.  The code refutes
this: a successful response containing a reservation with no instance list
panics the spawned task at `.expect("instances")` (main.rs:288) before any
send; the tokio runtime catches the panic, the task dies, its sender is
dropped, and the channel closes with zero events and no `ErrorItem`. -/
theorem c7_counterexample :
    fetchOutcome (Except.ok [{ instances := none }])
      { profile := none, filter := [], name_tag := none, name_host := false,
        name_id := false, command := none } = none ∧
    bridgeEvents (fetchOutcome (Except.ok [{ instances := none }])
      { profile := none, filter := [], name_tag := none, name_host := false,
        name_id := false, command := none }) = [] :=
  ⟨rfl, rfl⟩

/-- C7 (amended): the channel always closes after a finite send sequence
and never mixes the two event kinds: on success one entry per fetched item
in fetch order (possibly zero), on a returned fetch error exactly one
`ErrorItem` carrying the failure's message — but when the fetch panics the
channel closes with zero events and no `ErrorItem`, and the panic happens
exactly when a successful response contains a reservation without an
instance list. -/
theorem c7_amended_bridge_terminal :
    (∀ r : Option (Except String (List InstanceItem)),
       (∃ items, r = some (Except.ok items) ∧
          bridgeEvents r = items.map SkimEntry.inst ∧
          (bridgeEvents r).length = items.length ∧
          ∀ e ∈ bridgeEvents r, ∃ i, e = SkimEntry.inst i) ∨
       (∃ msg, r = some (Except.error msg) ∧
          bridgeEvents r = [SkimEntry.err { message := msg }] ∧
          ∀ e ∈ bridgeEvents r, ∀ i : InstanceItem, e ≠ SkimEntry.inst i) ∨
       (r = none ∧ bridgeEvents r = [])) ∧
    (∀ (response : Except String (List Reservation)) (args : Args),
       fetchOutcome response args = none ↔
         ∃ rs, response = Except.ok rs ∧ ∃ rv ∈ rs, rv.instances = none) := by
  constructor
  · intro r
    match r with
    | some (Except.ok items) =>
      left
      refine ⟨items, rfl, rfl, by simp [bridgeEvents], ?_⟩
      intro e he
      simp only [bridgeEvents, List.mem_map] at he
      obtain ⟨i, -, hi⟩ := he
      exact ⟨i, hi.symm⟩
    | some (Except.error msg) =>
      right; left
      refine ⟨msg, rfl, rfl, ?_⟩
      intro e he i
      simp only [bridgeEvents, List.mem_singleton] at he
      subst he
      simp
    | none =>
      right; right
      exact ⟨rfl, rfl⟩
  · intro response args
    cases response with
    | error msg => simp [fetchOutcome]
    | ok rs =>
      cases hf : flattenReservations rs with
      | none =>
        have hx := (flattenReservations_none_iff rs).mp hf
        simp [fetchOutcome, getInstances, hf]
        exact hx
      | some flat =>
        have hnot : ¬ ∃ rv ∈ rs, rv.instances = none := by
          intro hx
          have h2 := (flattenReservations_none_iff rs).mpr hx
          rw [hf] at h2
          exact absurd h2 (by simp)
        simp [fetchOutcome, getInstances, hf]
        exact fun rv hm hn => hnot ⟨rv, hm, hn⟩

/-- C7 witness: the amended theorem applied at a concrete failed fetch,
yielding the single error entry, and at a concrete panicking response,
yielding the zero-event close. -/
theorem c7_witness :
    bridgeEvents (some (Except.error "request timed out")) =
      [SkimEntry.err { message := "request timed out" }] ∧
    fetchOutcome (Except.ok [{ instances := none }])
      { profile := none, filter := ["k=v"], name_tag := none, name_host := true,
        name_id := false, command := none } = none := by
  constructor
  · rcases c7_amended_bridge_terminal.1 (some (Except.error "request timed out")) with
      ⟨items, h, -, -, -⟩ | ⟨msg, hm, he, -⟩ | ⟨h, -⟩
    · exact absurd h (by simp)
    · have h1 := Option.some.inj hm
      have h2 : "request timed out" = msg := by injection h1
      subst h2
      exact he
    · exact absurd h (by simp)
  · refine (c7_amended_bridge_terminal.2 (Except.ok [{ instances := none }]) _).mpr ?_
    exact ⟨[{ instances := none }], rfl, { instances := none }, List.mem_singleton.mpr rfl, rfl⟩

/-- Soundness of `splitOnceAux` in the `some` case: the split happens at the
first occurrence of the separator. -/
theorem splitOnceAux_some_sound (c : Char) :
    ∀ l pre post : List Char, splitOnceAux c l = some (pre, post) →
      l = pre ++ c :: post ∧ c ∉ pre := by
  intro l
  induction l with
  | nil => intro pre post h; simp [splitOnceAux] at h
  | cons x xs ih =>
    intro pre post h
    by_cases hx : x = c
    · simp only [splitOnceAux, if_pos hx] at h
      obtain ⟨h1, h2⟩ := Prod.mk.injEq .. ▸ Option.some.inj h
      subst h1; subst h2
      simp [hx]
    · cases hrec : splitOnceAux c xs with
      | none => simp [splitOnceAux, hx, hrec] at h
      | some p =>
        cases p with
        | mk pre2 post2 =>
          simp only [splitOnceAux, if_neg hx, hrec] at h
          obtain ⟨h1, h2⟩ := Prod.mk.injEq .. ▸ Option.some.inj h
          subst h1; subst h2
          obtain ⟨ha, hb⟩ := ih pre2 post2 hrec
          subst ha
          refine ⟨rfl, ?_⟩
          simp only [List.mem_cons]
          rintro (hc | hc)
          · exact hx hc.symm
          · exact hb hc

/-- Soundness of `splitOnceAux` in the `none` case: the separator does not
occur. -/
theorem splitOnceAux_none_sound (c : Char) :
    ∀ l : List Char, splitOnceAux c l = none → c ∉ l := by
  intro l
  induction l with
  | nil => intro _; simp
  | cons x xs ih =>
    intro h
    by_cases hx : x = c
    · simp [splitOnceAux, hx] at h
    · cases hrec : splitOnceAux c xs with
      | some p => cases p with | mk a b => simp [splitOnceAux, hx, hrec] at h
      | none =>
        have hxs := ih hrec
        simp only [List.mem_cons]
        rintro (hc | hc)
        · exact hx hc.symm
        · exact hxs hc

/-- Lifting of the `some` soundness to `String.split_once`. -/
theorem splitOnce_some_sound (s : String) (c : Char) (n v : String)
    (h : splitOnce s c = some (n, v)) :
    s.data = n.data ++ c :: v.data ∧ c ∉ n.data := by
  unfold splitOnce at h
  cases hs : splitOnceAux c s.data with
  | none => rw [hs] at h; exact absurd h (by simp)
  | some p =>
    cases p with
    | mk pre post =>
      rw [hs] at h
      simp only [Option.some.injEq, Prod.mk.injEq] at h
      obtain ⟨h1, h2⟩ := h
      have hsound := splitOnceAux_some_sound c s.data pre post hs
      rw [← h1, ← h2]
      exact hsound

/-- Lifting of the `none` soundness to `String.split_once`. -/
theorem splitOnce_none_sound (s : String) (c : Char)
    (h : splitOnce s c = none) : c ∉ s.data := by
  unfold splitOnce at h
  cases hs : splitOnceAux c s.data with
  | none => exact splitOnceAux_none_sound c s.data hs
  | some p => cases p with | mk a b => rw [hs] at h; exact absurd h (by simp)

/-- C8: the Filter Builder maps each filter string, in order, to one
predicate: a string is split at its first `=` into a name and one value
(possibly empty), a string without `=` becomes a bare name with no values,
and an empty input list is replaced by the single default predicate
`instance-state-name=running`. -/
theorem c8_filter_builder :
    (∀ fs : List String, fs ≠ [] → buildFilters fs = fs.map buildFilter) ∧
    (buildFilters [] = [{ name := "instance-state-name", values := ["running"] }]) ∧
    (∀ s n v : String, splitOnce s '=' = some (n, v) →
       buildFilter s = { name := n, values := [v] } ∧
       s.data = n.data ++ '=' :: v.data ∧ '=' ∉ n.data) ∧
    (∀ s : String, splitOnce s '=' = none →
       buildFilter s = { name := s, values := [] } ∧ '=' ∉ s.data) := by
  refine ⟨fun fs h => ?_, by decide, fun s n v h => ?_, fun s h => ?_⟩
  · cases fs with
    | nil => exact absurd rfl h
    | cons a as => simp [buildFilters, defaultFilters]
  · exact ⟨by simp [buildFilter, h], splitOnce_some_sound s '=' n v h⟩
  · exact ⟨by simp [buildFilter, h], splitOnce_none_sound s '=' h⟩

/-- C8 witness: the theorem applied to the concrete filter lists of the
spec's examples. -/
theorem c8_witness :
    buildFilters ["k=v", "foo"] =
      [{ name := "k", values := ["v"] }, { name := "foo", values := [] }] ∧
    buildFilter "k=" = { name := "k", values := [""] } := by
  constructor
  · rw [c8_filter_builder.1 ["k=v", "foo"] (by simp)]
    decide
  · exact (c8_filter_builder.2.2.1 "k=" "k" "" (by decide)).1

/-- C9: the Action Executor (main.rs:221-234): with no template the raw
identifier is printed; with a template the identifier is shell-escaped and
then substituted for every `{}` occurrence when the template contains one,
or appended as a trailing word otherwise, and the line is run through
`sh -c`; escaping a simple identifier of whitelisted characters is a
no-op. -/
theorem c9_action_executor :
    (∀ id : String, actionExecutor none id = ActionResult.printed id) ∧
    (∀ cmd id : String, hasSubstr cmd placeholder = true →
       actionExecutor (some cmd) id =
         ActionResult.execLine (replaceAll cmd placeholder (shellEscape id))) ∧
    (∀ cmd id : String, hasSubstr cmd placeholder = false →
       actionExecutor (some cmd) id =
         ActionResult.execLine (cmd ++ " " ++ shellEscape id)) ∧
    (∀ id : String, id.isEmpty = false → id.data.all shellAllowed = true →
       shellEscape id = id) ∧
    actionExecutor (some "ssh \x7b\x7d") "i-0123" = ActionResult.execLine "ssh i-0123" := by
  refine ⟨fun id => rfl, fun cmd id h => ?_, fun cmd id h => ?_,
    fun id h1 h2 => ?_, by decide⟩
  · simp [actionExecutor, h]
  · simp [actionExecutor, h]
  · simp [shellEscape, h1, h2]

/-- C9 witness: the theorem applied to concrete templates — a template with
two placeholder occurrences has the identifier substituted at both, a
template without a placeholder gets it appended, and escaping `i-0123` is a
no-op. -/
theorem c9_witness :
    actionExecutor (some "a \x7b\x7d b \x7b\x7d") "i-9" = ActionResult.execLine "a i-9 b i-9" ∧
    actionExecutor (some "echo") "i-9" = ActionResult.execLine "echo i-9" ∧
    shellEscape "i-0123" = "i-0123" := by
  refine ⟨?_, ?_, c9_action_executor.2.2.2.1 "i-0123" (by decide) (by decide)⟩
  · rw [c9_action_executor.2.1 "a \x7b\x7d b \x7b\x7d" "i-9" (by decide)]
    decide
  · rw [c9_action_executor.2.2.1 "echo" "i-9" (by decide)]
    decide

/-- C10: exactly one name rule is chosen per run, with fixed precedence
`--name-tag` over `--name-host` over `--name-id` over the default
`Tag("Name")` (main.rs:276-284), and `get_instances` attaches that one rule
to every item it produces (main.rs:289-293). -/
theorem c10_name_rule_precedence :
    (∀ (args : Args) (tag : String), args.name_tag = some tag →
       chooseNameRule args = NameRule.tag tag) ∧
    (∀ args : Args, args.name_tag = none → args.name_host = true →
       chooseNameRule args = NameRule.host) ∧
    (∀ args : Args, args.name_tag = none → args.name_host = false →
       args.name_id = true → chooseNameRule args = NameRule.instanceID) ∧
    (∀ args : Args, args.name_tag = none → args.name_host = false →
       args.name_id = false → chooseNameRule args = NameRule.tag "Name") ∧
    (∀ (rs : List Reservation) (args : Args) (items : List InstanceItem),
       getInstances rs args = some items →
       ∀ it ∈ items, it.name_rule = chooseNameRule args) := by
  refine ⟨fun args tag h => by simp [chooseNameRule, h],
    fun args h1 h2 => by simp [chooseNameRule, h1, h2],
    fun args h1 h2 h3 => by simp [chooseNameRule, h1, h2, h3],
    fun args h1 h2 h3 => by simp [chooseNameRule, h1, h2, h3],
    fun rs args items h it hit => ?_⟩
  unfold getInstances at h
  cases hf : flattenReservations rs with
  | none => rw [hf] at h; exact absurd h (by simp)
  | some flat =>
    rw [hf] at h
    simp at h
    subst h
    simp only [makeItems, List.mem_map] at hit
    obtain ⟨i, -, hi⟩ := hit
    rw [← hi]

/-- C10 witness: the theorem applied to concrete argument records covering
each precedence step. -/
theorem c10_witness :
    chooseNameRule { profile := none, filter := [], name_tag := some "env",
                     name_host := true, name_id := true, command := none } =
      NameRule.tag "env" ∧
    chooseNameRule { profile := none, filter := [], name_tag := none,
                     name_host := true, name_id := true, command := none } =
      NameRule.host ∧
    chooseNameRule { profile := none, filter := [], name_tag := none,
                     name_host := false, name_id := true, command := none } =
      NameRule.instanceID ∧
    chooseNameRule { profile := none, filter := [], name_tag := none,
                     name_host := false, name_id := false, command := none } =
      NameRule.tag "Name" :=
  ⟨c10_name_rule_precedence.1 _ "env" rfl,
   c10_name_rule_precedence.2.1 _ rfl rfl,
   c10_name_rule_precedence.2.2.1 _ rfl rfl rfl,
   c10_name_rule_precedence.2.2.2.1 _ rfl rfl rfl⟩
